import Mathlib

/-!
# Verification of the Mobile Wallet Protocol host controller

A shallow embedding of `react-native/host/src/provider/MobileWalletProtocolProvider.tsx`:
the host-side protocol controller that decodes inbound requests, deduplicates them,
validates sessions, aggregates per-action approvals/rejections and dispatches responses.

The provider's module-level and hook state (`prevRequestUUID`, `actionToResponseMap`,
`activeMessage`, and the session store behind `secureStorage`) is modelled as an explicit
`HostState` record; each operation is a pure function from `HostState` to a result,
an updated state and a list of `Effect`s standing for the fire-and-forget collaborator
calls (event emission, error/response delivery, storage writes, decryption).

Collaborators whose code lives elsewhere in the repository (`shouldRespondToClient`,
`isSessionValid`, `getSession`, `createSession`, `deleteSessions`, `addSession`,
the request-mapping helpers) are modelled from the specification, as marked on each
definition.  The codec (`decodeRequest` / `decryptRequest`) is an out-of-scope external
collaborator and is passed in as an arbitrary pure function.
-/

namespace MWP

/-- The discriminator of an action: a handshake action or a regular request action
(`isHandshakeAction` in the source inspects this). -/
inductive ActionKind where
  | handshake
  | request
deriving DecidableEq, Repr

/-- One unit of work requiring a user decision (source `HandshakeAction` /
`RequestAction`): an `id` unique within its message, the kind, the `optional` flag,
and the application-identifying fields. -/
structure Action where
  id : Nat
  kind : ActionKind
  optional : Bool
  appId : String
  callback : String
deriving DecidableEq, Repr

/-- Source `isHandshakeAction`: discriminates handshake actions. -/
def isHandshakeAction (a : Action) : Bool :=
  a.kind = ActionKind.handshake

/-- Kind of an incoming message: handshake or (decrypted) request. -/
inductive MessageKind where
  | handshake
  | request
deriving DecidableEq, Repr

/-- Source `RequestMessage`: the single active unit of work, carrying the inbound
request's uuid, the client's callback url, its kind and the ordered action list. -/
structure RequestMessage where
  uuid : String
  callbackUrl : String
  kind : MessageKind
  actions : List Action
deriving DecidableEq, Repr

/-- A persisted trust relationship with one client application.
Modelled from the spec: `Session` attributes `dappId`, `dappName`, `dappURL` and a
`createdAt` freshness marker (wall-clock time in days); the encryption material is
out of scope and omitted. -/
structure Session where
  dappId : String
  dappName : String
  dappURL : String
  createdAt : Nat
deriving DecidableEq, Repr

/-- Source `AppMetadata` (from `fetchClientAppMetadata`): the fetched identity of a
client application. -/
structure AppMetadata where
  appId : String
  appName : String
  appUrl : String
deriving DecidableEq, Repr

/-- Source `ReturnValue`: one recorded per-action outcome, a result or an error.
The result/error payloads are opaque strings. -/
inductive ReturnValue where
  | result (v : String)
  | error (e : String)
deriving DecidableEq, Repr

/-- The handshake payload of a decoded envelope: the fields the handshake action is
seeded from. -/
structure HandshakePayload where
  appId : String
  appName : String
  callback : String
deriving DecidableEq, Repr

/-- One decrypted action entry of a request payload, carrying its `optional` flag. -/
structure DecryptedAction where
  id : Nat
  optional : Bool
  appId : String
  callback : String
deriving DecidableEq, Repr

/-- The content of a decoded envelope: either a handshake payload or an encrypted
request payload (whose client identity keys the session lookup); `unknown` covers the
source's fall-through when neither key is present. -/
inductive EnvelopeContent where
  | handshake (h : HandshakePayload)
  | request (appId : String)
  | unknown
deriving DecidableEq, Repr

/-- A decoded inbound envelope: the request `uuid`, the client's callback url and the
classified content. -/
structure Envelope where
  uuid : String
  callbackUrl : String
  content : EnvelopeContent
deriving DecidableEq, Repr

/-- The fire-and-forget collaborator calls an operation performs, in order. -/
inductive Effect where
  | emitEvent (name : String) (params : List (String × String))
  | sendErr (description : String) (callbackUrl : String)
  | sendResp (responses : List (Nat × ReturnValue)) (callbackUrl : String)
  | storeDelete (dappId : String)
  | storeAdd (dappId : String)
  | decrypt
  | fetchMetadata (appId : String) (appUrl : String)
  | verifyApp (appId : String) (callbackUrl : String)
deriving DecidableEq, Repr

/-- Is this effect a response delivery? -/
def Effect.isSendResp : Effect → Bool
  | .sendResp _ _ => true
  | _ => false

/-- The controller's mutable state: the module-level `prevRequestUUID` dedupe marker
and `actionToResponseMap` (an association list with most-recent-first overwrite
semantics), the hook state `activeMessage`, and the session store's contents. -/
structure HostState where
  prevRequestUUID : Option String
  actionToResponseMap : List (Nat × ReturnValue)
  activeMessage : Option RequestMessage
  sessions : List Session
deriving DecidableEq, Repr

/-- The out-of-scope codec collaborator, as an arbitrary pure function: `decode` for
`decodeRequest` (returning `none` on decode failure) and `decryptActions` for the
action entries `decryptRequest` recovers with a session's key material. -/
structure Codec where
  decode : String → Option Envelope
  decryptActions : String → Session → List DecryptedAction

/-- Source `Map.set` on the response map: insert or overwrite the entry for key `k`. -/
def mapSet (m : List (Nat × ReturnValue)) (k : Nat) (v : ReturnValue) :
    List (Nat × ReturnValue) :=
  (k, v) :: m.filter (fun p => p.1 != k)

/-- Source `updateActiveMessage`: clears the response map and replaces the active
message in the same step. -/
def updateActiveMessage (m : Option RequestMessage) (s : HostState) : HostState :=
  { s with actionToResponseMap := [], activeMessage := m }

/-- Modelled from the spec: `shouldRespondToClient` (the aggregator's `isComplete`)
returns true iff every action in the message's ordered action sequence has a
corresponding entry in the response map — full coverage, not value-dependent. -/
def shouldRespondToClient (m : List (Nat × ReturnValue)) (msg : RequestMessage) : Bool :=
  msg.actions.all (fun a => (m.lookup a.id).isSome)

/-- Modelled from the spec: `isSessionValid` checks the session's wall-clock age since
creation, measured in days, against the configured expiry window `sessionExpiryDays`
(valid at age 6 with a 7-day window, invalid at age 8).  The wall clock is passed
explicitly as `now`. -/
def isSessionValid (sess : Session) (sessionExpiryDays : Nat) (now : Nat) : Bool :=
  now - sess.createdAt < sessionExpiryDays

/-- Modelled from the spec: `getSession` looks up the session for an action-request
envelope in the store, keyed by the client application identity the envelope carries. -/
def getSession (sessions : List Session) (decoded : Envelope) : Option Session :=
  match decoded.content with
  | .request appId => sessions.find? (fun v => v.dappId == appId)
  | _ => none

/-- Modelled from the spec: `deleteSessions` removes the given sessions from the
store's contents. -/
def deleteSessions (toDelete : List Session) (sessions : List Session) : List Session :=
  sessions.filter (fun v => decide (v ∉ toDelete))

/-- Modelled from the spec: `createSession` builds a new session from the approved
handshake and its fetched metadata, stamped with the current time. -/
def createSession (metadata : AppMetadata) (_action : Action) (_msg : RequestMessage)
    (now : Nat) : Session :=
  { dappId := metadata.appId
    dappName := metadata.appName
    dappURL := metadata.appUrl
    createdAt := now }

/-- Modelled from the spec: `mapHandshakeToRequest` maps a handshake payload to an
`IncomingMessage` of kind Handshake containing one handshake action seeded from the
payload. -/
def mapHandshakeToRequest (h : HandshakePayload) (decoded : Envelope) : RequestMessage :=
  { uuid := decoded.uuid
    callbackUrl := decoded.callbackUrl
    kind := MessageKind.handshake
    actions := [{ id := 0
                  kind := ActionKind.handshake
                  optional := false
                  appId := h.appId
                  callback := h.callback }] }

/-- Modelled from the spec: `mapDecryptedContentToRequest` maps the decrypted content
into an `IncomingMessage` of kind Request, one action per decrypted entry, carrying
each entry's `optional` flag. -/
def mapDecryptedContentToRequest (acts : List DecryptedAction) (decoded : Envelope) :
    RequestMessage :=
  { uuid := decoded.uuid
    callbackUrl := decoded.callbackUrl
    kind := MessageKind.request
    actions := acts.map (fun d =>
      { id := d.id
        kind := ActionKind.request
        optional := d.optional
        appId := d.appId
        callback := d.callback }) }

/-- Source `handleRequestUrl` (lines 66–126): decode, dedupe against
`prevRequestUUID`, then either install a handshake message, or resolve and validate
the session, decrypt and install a request message; failure paths return `false`. -/
def handleRequestUrl (codec : Codec) (sessionExpiryDays : Nat) (now : Nat)
    (url : String) (s : HostState) : Bool × HostState × List Effect :=
  match codec.decode url with
  | none => (false, s, [])
  | some decoded =>
    if s.prevRequestUUID = some decoded.uuid then
      (false, s, [])
    else
      let s1 := { s with prevRequestUUID := some decoded.uuid }
      match decoded.content with
      | .handshake h =>
        (true, updateActiveMessage (some (mapHandshakeToRequest h decoded)) s1, [])
      | .request _ =>
        match getSession s1.sessions decoded with
        | none =>
          (false, s1,
            [Effect.emitEvent "session_not_found"
              [("callbackUrl", decoded.callbackUrl)],
             Effect.sendErr
              "Session not found. Please initiate a handshake request prior to making a request"
              decoded.callbackUrl])
        | some session =>
          if ¬ isSessionValid session sessionExpiryDays now then
            (false, { s1 with sessions := deleteSessions [session] s1.sessions },
              [Effect.emitEvent "session_expired"
                [("appName", session.dappName), ("appId", session.dappId),
                 ("callbackUrl", session.dappURL)],
               Effect.storeDelete session.dappId,
               Effect.sendErr
                "Session expired. Please initiate another handshake request to connect."
                decoded.callbackUrl])
          else
            let acts := codec.decryptActions url session
            (true,
             updateActiveMessage (some (mapDecryptedContentToRequest acts decoded)) s1,
             [Effect.decrypt])
      | .unknown => (false, s1, [])

/-- The handshake action of the active message, if any
(`activeMessage?.actions.find(isHandshakeAction)` in the source). -/
def activeHandshake (s : HostState) : Option Action :=
  match s.activeMessage with
  | none => none
  | some msg => msg.actions.find? isHandshakeAction

/-- Source `fetchAppMetadata` (lines 128–138): requires an active message with a
handshake action, then delegates to the external metadata fetcher. -/
def fetchAppMetadata (s : HostState) : Except String (HostState × List Effect) :=
  match activeHandshake s with
  | none => Except.error "No handshake action"
  | some h => Except.ok (s, [Effect.fetchMetadata h.appId h.callback])

/-- Source `isAppVerified` (lines 140–150): requires an active message with a
handshake action, then delegates to the external verifier. -/
def isAppVerified (s : HostState) : Except String (HostState × List Effect) :=
  match activeHandshake s with
  | none => Except.error "No handshake action"
  | some h => Except.ok (s, [Effect.verifyApp h.appId h.callback])

/-- Source `approveHandshake` (lines 152–175): requires an active message, creates a
session, deletes any existing session with the same app id, adds the new session, and
sends the response and clears the active message if the aggregator reports
completeness.  Note: it records no outcome in the response map. -/
def approveHandshake (action : Action) (metadata : AppMetadata) (now : Nat)
    (s : HostState) : Except String (HostState × List Effect) :=
  match s.activeMessage with
  | none => Except.error "No message found"
  | some msg =>
    let session := createSession metadata action msg now
    let existingSession := s.sessions.find? (fun v => v.dappId == metadata.appId)
    let (sessions1, effs1) :=
      match existingSession with
      | some e => (deleteSessions [e] s.sessions, [Effect.storeDelete e.dappId])
      | none => (s.sessions, [])
    let s2 := { s with sessions := sessions1 ++ [session] }
    let effs2 := effs1 ++ [Effect.storeAdd session.dappId]
    if shouldRespondToClient s2.actionToResponseMap msg then
      Except.ok (updateActiveMessage none s2,
        effs2 ++ [Effect.sendResp s2.actionToResponseMap msg.callbackUrl])
    else
      Except.ok (s2, effs2)

/-- Source `rejectHandshake` (lines 177–187): requires an active message, sends the
error and clears the active message. -/
def rejectHandshake (description : String) (s : HostState) :
    Except String (HostState × List Effect) :=
  match s.activeMessage with
  | none => Except.error "No message found"
  | some msg =>
    Except.ok (updateActiveMessage none s,
      [Effect.sendErr description msg.callbackUrl])

/-- Source `approveAction` (lines 189–203): requires an active message, records a
success outcome for the action, and sends the response and clears the active message
if the aggregator reports completeness. -/
def approveAction (action : Action) (result : String) (s : HostState) :
    Except String (HostState × List Effect) :=
  match s.activeMessage with
  | none => Except.error "No message found"
  | some msg =>
    let m1 := mapSet s.actionToResponseMap action.id (ReturnValue.result result)
    let s1 := { s with actionToResponseMap := m1 }
    if shouldRespondToClient m1 msg then
      Except.ok (updateActiveMessage none s1, [Effect.sendResp m1 msg.callbackUrl])
    else
      Except.ok (s1, [])

/-- Source `rejectAction` (lines 205–223): requires an active message, records an
error outcome for the action; for an optional action it sends and clears only when
the aggregator reports completeness, while for a mandatory action it sends the
response immediately (the source does not clear the active message there). -/
def rejectAction (action : Action) (error : String) (s : HostState) :
    Except String (HostState × List Effect) :=
  match s.activeMessage with
  | none => Except.error "No message found"
  | some msg =>
    let m1 := mapSet s.actionToResponseMap action.id (ReturnValue.error error)
    let s1 := { s with actionToResponseMap := m1 }
    if action.optional then
      if shouldRespondToClient m1 msg then
        Except.ok (updateActiveMessage none s1, [Effect.sendResp m1 msg.callbackUrl])
      else
        Except.ok (s1, [])
    else
      Except.ok (s1, [Effect.sendResp m1 msg.callbackUrl])

/-! ## Concrete instances used to evaluate the model -/

/-- A concrete codec: decodes the url `"req"` to an action-request envelope for app
`app1` and the url `"hs"` to a handshake envelope; decryption yields one mandatory
action. -/
def exCodec : Codec where
  decode url :=
    if url = "req" then
      some (Envelope.mk "uuid-1" "cb" (EnvelopeContent.request "app1"))
    else if url = "hs" then
      some (Envelope.mk "uuid-2" "cb"
        (EnvelopeContent.handshake (HandshakePayload.mk "app1" "App One" "cb")))
    else none
  decryptActions _ _ := [DecryptedAction.mk 1 false "app1" "cb"]

/-- The envelope `exCodec` decodes `"req"` to. -/
def exEnvReq : Envelope := Envelope.mk "uuid-1" "cb" (EnvelopeContent.request "app1")

/-- A mandatory request action. -/
def exActionA : Action := Action.mk 1 ActionKind.request false "app1" "cb"

/-- An optional request action. -/
def exActionB : Action := Action.mk 2 ActionKind.request true "app1" "cb"

/-- A handshake action. -/
def exHsAction : Action := Action.mk 0 ActionKind.handshake false "app1" "cb"

/-- A Request-kind message with one mandatory and one optional action. -/
def exReqMsg : RequestMessage :=
  RequestMessage.mk "uuid-1" "cb" MessageKind.request [exActionA, exActionB]

/-- A Handshake-kind message with its lone handshake action. -/
def exHsMsg : RequestMessage :=
  RequestMessage.mk "uuid-2" "cb" MessageKind.handshake [exHsAction]

/-- Fetched metadata for app `app1`. -/
def exMetadata : AppMetadata := AppMetadata.mk "app1" "App One" "url1"

/-- A stored session for app `app1` created at day 0. -/
def exSession : Session := Session.mk "app1" "App One" "url1" 0

/-- The empty initial state. -/
def exState0 : HostState := HostState.mk none [] none []

/-- A state whose active message is `exReqMsg`. -/
def exStateReq : HostState := HostState.mk (some "uuid-1") [] (some exReqMsg) []

/-- A state whose active message is `exHsMsg`. -/
def exStateHs : HostState := HostState.mk (some "uuid-2") [] (some exHsMsg) []

/-- A state holding one stored session for `app1` and no active message. -/
def exStateSess : HostState := HostState.mk none [] none [exSession]

/-- A Request-kind message whose only action is the mandatory `exActionA`. -/
def exReqMsg1 : RequestMessage :=
  RequestMessage.mk "uuid-1" "cb" MessageKind.request [exActionA]

/-- A state whose active message is `exReqMsg1` with an empty response map. -/
def exStateReq1 : HostState := HostState.mk (some "uuid-1") [] (some exReqMsg1) []

/-- The response-map scoping invariant: every entry of the response map belongs to an
action of the currently active message (so the map is empty whenever no message is
active). -/
def MapScoped (s : HostState) : Prop :=
  ∀ p ∈ s.actionToResponseMap,
    ∃ msg, s.activeMessage = some msg ∧ ∃ a ∈ msg.actions, a.id = p.1

end MWP

namespace MWP

/-! ## Helper lemmas -/

/-- After any `handleRequestUrl` call whose url decodes, the dedupe marker holds the
decoded uuid: either the call was fresh and set it, or it was a duplicate and the
marker already held it. -/
theorem handleRequestUrl_marker (codec : Codec) (e n : Nat) (url : String)
    (s : HostState) (d : Envelope) (hd : codec.decode url = some d) :
    ((handleRequestUrl codec e n url s).2.1).prevRequestUUID = some d.uuid := by
  by_cases hdup : s.prevRequestUUID = some d.uuid
  · simp [handleRequestUrl, hd, hdup]
  · cases hc : d.content with
    | handshake h => simp [handleRequestUrl, hd, hdup, hc, updateActiveMessage]
    | request appId =>
      cases hs : getSession s.sessions d with
      | none => simp [handleRequestUrl, hd, hdup, hc, hs]
      | some sess =>
        by_cases hv : isSessionValid sess e n
        · simp [handleRequestUrl, hd, hdup, hc, hs, hv, updateActiveMessage]
        · simp [handleRequestUrl, hd, hdup, hc, hs, hv]
    | unknown => simp [handleRequestUrl, hd, hdup, hc]

/-! ## Claim theorems -/

/-- C2: if `handleRequestUrl` is called twice in immediate succession with requests
decoding to the same uuid, the second call returns `false` with the state unchanged
and no effects: no event, no response, no change to the active message or the
response map — the duplicate is silently ignored before any further processing. -/
theorem handleRequestUrl_duplicate_ignored
    (codec : Codec) (e1 n1 e2 n2 : Nat) (url1 url2 : String) (s : HostState)
    (d1 d2 : Envelope)
    (h1 : codec.decode url1 = some d1) (h2 : codec.decode url2 = some d2)
    (huuid : d2.uuid = d1.uuid) :
    handleRequestUrl codec e2 n2 url2 (handleRequestUrl codec e1 n1 url1 s).2.1 =
      (false, (handleRequestUrl codec e1 n1 url1 s).2.1, []) := by
  have hm := handleRequestUrl_marker codec e1 n1 url1 s d1 h1
  generalize (handleRequestUrl codec e1 n1 url1 s).2.1 = s1 at hm ⊢
  unfold handleRequestUrl
  rw [h2]
  simp [hm, huuid]

/-- C2 witness: a concrete double submission of the same url. -/
theorem handleRequestUrl_duplicate_ignored_witness :
    handleRequestUrl
        (Codec.mk (fun url => if url = "req" then some (Envelope.mk "uuid-1" "cb" (EnvelopeContent.request "app1")) else none) (fun _ _ => []))
        7 0
        "req"
        (handleRequestUrl
          (Codec.mk (fun url => if url = "req" then some (Envelope.mk "uuid-1" "cb" (EnvelopeContent.request "app1")) else none) (fun _ _ => []))
          7 0 "req" (HostState.mk none [] none [])).2.1 =
      (false,
       (handleRequestUrl
          (Codec.mk (fun url => if url = "req" then some (Envelope.mk "uuid-1" "cb" (EnvelopeContent.request "app1")) else none) (fun _ _ => []))
          7 0 "req" (HostState.mk none [] none [])).2.1, []) :=
  handleRequestUrl_duplicate_ignored _ 7 0 7 0 "req" "req" _
    (Envelope.mk "uuid-1" "cb" (EnvelopeContent.request "app1"))
    (Envelope.mk "uuid-1" "cb" (EnvelopeContent.request "app1"))
    rfl rfl rfl

/-- C5: for an action-request envelope for which no session exists in the store,
`handleRequestUrl` emits one diagnostic event, dispatches one client-facing error
response to the request's callback, returns `false`, and leaves the active message
and the response map unchanged (only the dedupe marker moves). -/
theorem handleRequestUrl_no_session
    (codec : Codec) (e n : Nat) (url : String) (s : HostState)
    (d : Envelope) (appId : String)
    (hd : codec.decode url = some d) (hc : d.content = EnvelopeContent.request appId)
    (hfresh : ¬ s.prevRequestUUID = some d.uuid)
    (hsess : getSession s.sessions d = none) :
    handleRequestUrl codec e n url s =
      (false, { s with prevRequestUUID := some d.uuid },
        [Effect.emitEvent "session_not_found" [("callbackUrl", d.callbackUrl)],
         Effect.sendErr
           "Session not found. Please initiate a handshake request prior to making a request"
           d.callbackUrl])
    ∧ (handleRequestUrl codec e n url s).2.1.activeMessage = s.activeMessage
    ∧ (handleRequestUrl codec e n url s).2.1.actionToResponseMap = s.actionToResponseMap := by
  have hmain : handleRequestUrl codec e n url s =
      (false, { s with prevRequestUUID := some d.uuid },
        [Effect.emitEvent "session_not_found" [("callbackUrl", d.callbackUrl)],
         Effect.sendErr
           "Session not found. Please initiate a handshake request prior to making a request"
           d.callbackUrl]) := by
    simp [handleRequestUrl, hd, hfresh, hc, hsess]
  exact ⟨hmain, by rw [hmain], by rw [hmain]⟩

/-- C5 witness: submitting a request with an empty session store. -/
theorem handleRequestUrl_no_session_witness :
    handleRequestUrl exCodec 7 0 "req" exState0 =
      (false, { exState0 with prevRequestUUID := some "uuid-1" },
        [Effect.emitEvent "session_not_found" [("callbackUrl", "cb")],
         Effect.sendErr
           "Session not found. Please initiate a handshake request prior to making a request"
           "cb"])
    ∧ (handleRequestUrl exCodec 7 0 "req" exState0).2.1.activeMessage = exState0.activeMessage
    ∧ (handleRequestUrl exCodec 7 0 "req" exState0).2.1.actionToResponseMap
        = exState0.actionToResponseMap :=
  handleRequestUrl_no_session exCodec 7 0 "req" exState0 exEnvReq "app1" rfl rfl
    (by simp [exState0]) rfl

/-- C4: for an action-request envelope whose session is found but fails the expiry
check, `handleRequestUrl` emits exactly one diagnostic event carrying the app
identity and callback, issues exactly one delete of that session, delivers exactly
one client-facing error response, returns `false`, and never attempts decryption
(the effect list contains no `decrypt`). -/
theorem handleRequestUrl_session_expired
    (codec : Codec) (e n : Nat) (url : String) (s : HostState)
    (d : Envelope) (appId : String) (sess : Session)
    (hd : codec.decode url = some d) (hc : d.content = EnvelopeContent.request appId)
    (hfresh : ¬ s.prevRequestUUID = some d.uuid)
    (hsess : getSession s.sessions d = some sess)
    (hexp : isSessionValid sess e n = false) :
    handleRequestUrl codec e n url s =
      (false, { s with prevRequestUUID := some d.uuid,
                       sessions := deleteSessions [sess] s.sessions },
        [Effect.emitEvent "session_expired"
          [("appName", sess.dappName), ("appId", sess.dappId),
           ("callbackUrl", sess.dappURL)],
         Effect.storeDelete sess.dappId,
         Effect.sendErr
           "Session expired. Please initiate another handshake request to connect."
           d.callbackUrl])
    ∧ Effect.decrypt ∉ (handleRequestUrl codec e n url s).2.2 := by
  have hmain : handleRequestUrl codec e n url s =
      (false, { s with prevRequestUUID := some d.uuid,
                       sessions := deleteSessions [sess] s.sessions },
        [Effect.emitEvent "session_expired"
          [("appName", sess.dappName), ("appId", sess.dappId),
           ("callbackUrl", sess.dappURL)],
         Effect.storeDelete sess.dappId,
         Effect.sendErr
           "Session expired. Please initiate another handshake request to connect."
           d.callbackUrl]) := by
    simp [handleRequestUrl, hd, hfresh, hc, hsess, hexp]
  refine ⟨hmain, ?_⟩
  rw [hmain]
  simp

/-- C4 witness: a session created at day 0 submitted at day 10 with a 7-day window. -/
theorem handleRequestUrl_session_expired_witness :
    handleRequestUrl exCodec 7 10 "req" exStateSess =
      (false, { exStateSess with prevRequestUUID := some "uuid-1",
                                 sessions := deleteSessions [exSession] exStateSess.sessions },
        [Effect.emitEvent "session_expired"
          [("appName", "App One"), ("appId", "app1"), ("callbackUrl", "url1")],
         Effect.storeDelete "app1",
         Effect.sendErr
           "Session expired. Please initiate another handshake request to connect."
           "cb"])
    ∧ Effect.decrypt ∉ (handleRequestUrl exCodec 7 10 "req" exStateSess).2.2 :=
  handleRequestUrl_session_expired exCodec 7 10 "req" exStateSess exEnvReq "app1" exSession
    rfl rfl (by simp [exStateSess]) rfl rfl

/-- C10: the dedupe marker is updated to the envelope's uuid before session
resolution and is not rolled back when the request path fails: after an
action-request fails with session-not-found or session-expired, an immediate
re-submission of the same request returns `false` silently, with no effects (no
error response, no event) and no state change. -/
theorem handleRequestUrl_retry_after_failure_silent
    (codec : Codec) (e n1 n2 : Nat) (url : String) (s : HostState)
    (d : Envelope) (appId : String)
    (hd : codec.decode url = some d) (hc : d.content = EnvelopeContent.request appId)
    (hfresh : ¬ s.prevRequestUUID = some d.uuid)
    (hfail : getSession s.sessions d = none ∨
      ∃ sess, getSession s.sessions d = some sess ∧ isSessionValid sess e n1 = false) :
    (handleRequestUrl codec e n1 url s).1 = false ∧
    handleRequestUrl codec e n2 url (handleRequestUrl codec e n1 url s).2.1 =
      (false, (handleRequestUrl codec e n1 url s).2.1, []) := by
  constructor
  · rcases hfail with hnone | ⟨sess, hsome, hexp⟩
    · simp [handleRequestUrl, hd, hfresh, hc, hnone]
    · simp [handleRequestUrl, hd, hfresh, hc, hsome, hexp]
  · have hm := handleRequestUrl_marker codec e n1 url s d hd
    generalize (handleRequestUrl codec e n1 url s).2.1 = s1 at hm ⊢
    unfold handleRequestUrl
    rw [hd]
    simp [hm]

/-- C10 witness: a session-not-found failure followed by an immediate retry. -/
theorem handleRequestUrl_retry_after_failure_silent_witness :
    (handleRequestUrl exCodec 7 0 "req" exState0).1 = false ∧
    handleRequestUrl exCodec 7 1 "req" (handleRequestUrl exCodec 7 0 "req" exState0).2.1 =
      (false, (handleRequestUrl exCodec 7 0 "req" exState0).2.1, []) :=
  handleRequestUrl_retry_after_failure_silent exCodec 7 0 1 "req" exState0 exEnvReq "app1"
    rfl rfl (by simp [exState0]) (Or.inl rfl)

/-- A state whose response map and active message agree with another scoped state is
itself scoped. -/
theorem mapScoped_of_eq (s s' : HostState)
    (hmap : s'.actionToResponseMap = s.actionToResponseMap)
    (hmsg : s'.activeMessage = s.activeMessage) (hs : MapScoped s) : MapScoped s' := by
  intro p hp
  rw [hmap] at hp
  rw [hmsg]
  exact hs p hp

/-- Applying `updateActiveMessage` always yields a scoped state: the response map is cleared in
the same step as the message is replaced. -/
theorem mapScoped_updateActiveMessage (m : Option RequestMessage) (s : HostState) :
    MapScoped (updateActiveMessage m s) := by
  intro p hp
  simp [updateActiveMessage] at hp

/-- Membership in the response map after a `set`: the new entry or an old one. -/
theorem mem_mapSet (m : List (Nat × ReturnValue)) (k : Nat) (v : ReturnValue)
    (p : Nat × ReturnValue) (hp : p ∈ mapSet m k v) : p = (k, v) ∨ p ∈ m := by
  simp only [mapSet, List.mem_cons, List.mem_filter] at hp
  rcases hp with h | h
  · exact Or.inl h
  · exact Or.inr h.1

/-- Intake via `handleRequestUrl` preserves the scoping invariant: every branch either leaves
the response map and active message untouched or goes through `updateActiveMessage`. -/
theorem mapScoped_handleRequestUrl (codec : Codec) (e n : Nat) (url : String)
    (s : HostState) (hs : MapScoped s) :
    MapScoped (handleRequestUrl codec e n url s).2.1 := by
  cases hd : codec.decode url with
  | none =>
    have heq : handleRequestUrl codec e n url s = (false, s, []) := by
      simp [handleRequestUrl, hd]
    rw [heq]
    exact hs
  | some d =>
    by_cases hdup : s.prevRequestUUID = some d.uuid
    · have heq : handleRequestUrl codec e n url s = (false, s, []) := by
        simp [handleRequestUrl, hd, hdup]
      rw [heq]
      exact hs
    · cases hc : d.content with
      | handshake h =>
        have heq : (handleRequestUrl codec e n url s).2.1 =
            updateActiveMessage (some (mapHandshakeToRequest h d))
              { s with prevRequestUUID := some d.uuid } := by
          simp [handleRequestUrl, hd, hdup, hc]
        rw [heq]
        exact mapScoped_updateActiveMessage _ _
      | request appId =>
        cases hsess : getSession s.sessions d with
        | none =>
          have heq : (handleRequestUrl codec e n url s).2.1 =
              { s with prevRequestUUID := some d.uuid } := by
            simp [handleRequestUrl, hd, hdup, hc, hsess]
          rw [heq]
          exact mapScoped_of_eq s _ rfl rfl hs
        | some sess =>
          by_cases hv : isSessionValid sess e n
          · have heq : (handleRequestUrl codec e n url s).2.1 =
                updateActiveMessage
                  (some (mapDecryptedContentToRequest (codec.decryptActions url sess) d))
                  { s with prevRequestUUID := some d.uuid } := by
              simp [handleRequestUrl, hd, hdup, hc, hsess, hv]
            rw [heq]
            exact mapScoped_updateActiveMessage _ _
          · have heq : (handleRequestUrl codec e n url s).2.1 =
                { s with prevRequestUUID := some d.uuid,
                         sessions := deleteSessions [sess] s.sessions } := by
              simp [handleRequestUrl, hd, hdup, hc, hsess, hv]
            rw [heq]
            exact mapScoped_of_eq s _ rfl rfl hs
      | unknown =>
        have heq : (handleRequestUrl codec e n url s).2.1 =
            { s with prevRequestUUID := some d.uuid } := by
          simp [handleRequestUrl, hd, hdup, hc]
        rw [heq]
        exact mapScoped_of_eq s _ rfl rfl hs

/-- The state an `approveHandshake` success leaves behind: either only the session
store changed, or the active message was cleared together with the response map. -/
theorem approveHandshake_state_shape (action : Action) (metadata : AppMetadata)
    (now : Nat) (s s' : HostState) (effs : List Effect)
    (h : approveHandshake action metadata now s = Except.ok (s', effs)) :
    (s'.actionToResponseMap = s.actionToResponseMap ∧ s'.activeMessage = s.activeMessage)
    ∨ (s'.actionToResponseMap = [] ∧ s'.activeMessage = none) := by
  cases hmsg : s.activeMessage with
  | none => simp [approveHandshake, hmsg] at h
  | some msg =>
    cases hex : s.sessions.find? (fun v => v.dappId == metadata.appId) with
    | none =>
      by_cases hcomp : shouldRespondToClient s.actionToResponseMap msg
      · simp [approveHandshake, hmsg, hex, hcomp] at h
        obtain ⟨h1, -⟩ := h
        rw [← h1]
        exact Or.inr ⟨rfl, rfl⟩
      · simp [approveHandshake, hmsg, hex, hcomp] at h
        obtain ⟨h1, -⟩ := h
        rw [← h1]
        exact Or.inl ⟨rfl, rfl⟩
    | some e =>
      by_cases hcomp : shouldRespondToClient s.actionToResponseMap msg
      · simp [approveHandshake, hmsg, hex, hcomp] at h
        obtain ⟨h1, -⟩ := h
        rw [← h1]
        exact Or.inr ⟨rfl, rfl⟩
      · simp [approveHandshake, hmsg, hex, hcomp] at h
        obtain ⟨h1, -⟩ := h
        rw [← h1]
        exact Or.inl ⟨rfl, rfl⟩

/-- The state a `rejectHandshake` success leaves behind: message and map cleared. -/
theorem rejectHandshake_state_shape (description : String) (s s' : HostState)
    (effs : List Effect)
    (h : rejectHandshake description s = Except.ok (s', effs)) :
    s'.actionToResponseMap = [] ∧ s'.activeMessage = none := by
  cases hmsg : s.activeMessage with
  | none => simp [rejectHandshake, hmsg] at h
  | some msg =>
    simp [rejectHandshake, hmsg] at h
    obtain ⟨h1, -⟩ := h
    rw [← h1]
    exact ⟨rfl, rfl⟩

/-- The state an `approveAction` success leaves behind: either the recorded entry was
added with the message still active, or message and map were cleared. -/
theorem approveAction_state_shape (action : Action) (result : String)
    (s s' : HostState) (effs : List Effect)
    (h : approveAction action result s = Except.ok (s', effs)) :
    (∃ msg, s.activeMessage = some msg ∧ s'.activeMessage = some msg ∧
      s'.actionToResponseMap
        = mapSet s.actionToResponseMap action.id (ReturnValue.result result))
    ∨ (s'.actionToResponseMap = [] ∧ s'.activeMessage = none) := by
  cases hmsg : s.activeMessage with
  | none => simp [approveAction, hmsg] at h
  | some msg =>
    by_cases hcomp : shouldRespondToClient
        (mapSet s.actionToResponseMap action.id (ReturnValue.result result)) msg
    · simp [approveAction, hmsg, hcomp] at h
      obtain ⟨h1, -⟩ := h
      rw [← h1]
      exact Or.inr ⟨rfl, rfl⟩
    · simp [approveAction, hmsg, hcomp] at h
      obtain ⟨h1, -⟩ := h
      rw [← h1]
      exact Or.inl ⟨msg, rfl, rfl, rfl⟩

/-- The state a `rejectAction` success leaves behind: either the recorded entry was
added with the message still active, or message and map were cleared. -/
theorem rejectAction_state_shape (action : Action) (err : String)
    (s s' : HostState) (effs : List Effect)
    (h : rejectAction action err s = Except.ok (s', effs)) :
    (∃ msg, s.activeMessage = some msg ∧ s'.activeMessage = some msg ∧
      s'.actionToResponseMap
        = mapSet s.actionToResponseMap action.id (ReturnValue.error err))
    ∨ (s'.actionToResponseMap = [] ∧ s'.activeMessage = none) := by
  cases hmsg : s.activeMessage with
  | none => simp [rejectAction, hmsg] at h
  | some msg =>
    by_cases hopt : action.optional
    · by_cases hcomp : shouldRespondToClient
          (mapSet s.actionToResponseMap action.id (ReturnValue.error err)) msg
      · simp [rejectAction, hmsg, hopt, hcomp] at h
        obtain ⟨h1, -⟩ := h
        rw [← h1]
        exact Or.inr ⟨rfl, rfl⟩
      · simp [rejectAction, hmsg, hopt, hcomp] at h
        obtain ⟨h1, -⟩ := h
        rw [← h1]
        exact Or.inl ⟨msg, rfl, rfl, rfl⟩
    · simp [rejectAction, hmsg, hopt] at h
      obtain ⟨h1, -⟩ := h
      rw [← h1]
      exact Or.inl ⟨msg, rfl, rfl, rfl⟩

/-- Scoping is preserved when an entry for an action of the active message is set. -/
theorem mapScoped_mapSet (s s' : HostState) (msg : RequestMessage) (action : Action)
    (v : ReturnValue) (hs : MapScoped s)
    (hmsg : s.activeMessage = some msg) (hmsg' : s'.activeMessage = some msg)
    (hmap : s'.actionToResponseMap = mapSet s.actionToResponseMap action.id v)
    (hmem : action ∈ msg.actions) : MapScoped s' := by
  intro p hp
  rw [hmap] at hp
  rcases mem_mapSet _ _ _ _ hp with hnew | hold
  · exact ⟨msg, hmsg', action, hmem, by rw [hnew]⟩
  · obtain ⟨msg0, hmsg0, a, ha, hid⟩ := hs p hold
    rw [hmsg] at hmsg0
    obtain rfl := Option.some.injEq _ _ ▸ hmsg0
    exact ⟨msg, hmsg', a, ha, hid⟩

/-- C8: whenever the active message is replaced (including being set to null) the
response map is cleared in the same step, so the map only ever holds entries for
actions of the currently active message; the scoping invariant is preserved by every
operation of the controller — intake, handshake approval/rejection and action
approval/rejection (the latter for an action belonging to the active message). -/
theorem responseMap_scoped_across_operations
    (codec : Codec) (e n now : Nat) (url : String) (s : HostState)
    (action : Action) (metadata : AppMetadata) (description result err : String)
    (hs : MapScoped s)
    (hact : ∀ msg, s.activeMessage = some msg → action ∈ msg.actions) :
    MapScoped (handleRequestUrl codec e n url s).2.1
    ∧ (∀ s' effs, approveHandshake action metadata now s = Except.ok (s', effs) →
        MapScoped s')
    ∧ (∀ s' effs, rejectHandshake description s = Except.ok (s', effs) → MapScoped s')
    ∧ (∀ s' effs, approveAction action result s = Except.ok (s', effs) → MapScoped s')
    ∧ (∀ s' effs, rejectAction action err s = Except.ok (s', effs) → MapScoped s') := by
  refine ⟨mapScoped_handleRequestUrl codec e n url s hs, ?_, ?_, ?_, ?_⟩
  · intro s' effs h
    rcases approveHandshake_state_shape action metadata now s s' effs h with
      ⟨hm, ha⟩ | ⟨hm, ha⟩
    · exact mapScoped_of_eq s s' hm ha hs
    · intro p hp
      rw [hm] at hp
      simp at hp
  · intro s' effs h
    obtain ⟨hm, ha⟩ := rejectHandshake_state_shape description s s' effs h
    intro p hp
    rw [hm] at hp
    simp at hp
  · intro s' effs h
    rcases approveAction_state_shape action result s s' effs h with
      ⟨msg, hmsg, hmsg', hm⟩ | ⟨hm, ha⟩
    · exact mapScoped_mapSet s s' msg action _ hs hmsg hmsg' hm (hact msg hmsg)
    · intro p hp
      rw [hm] at hp
      simp at hp
  · intro s' effs h
    rcases rejectAction_state_shape action err s s' effs h with
      ⟨msg, hmsg, hmsg', hm⟩ | ⟨hm, ha⟩
    · exact mapScoped_mapSet s s' msg action _ hs hmsg hmsg' hm (hact msg hmsg)
    · intro p hp
      rw [hm] at hp
      simp at hp

/-- C8 witness: the invariant instantiated at a concrete scoped state. -/
theorem responseMap_scoped_across_operations_witness :
    MapScoped (handleRequestUrl exCodec 7 0 "req" exStateReq1).2.1
    ∧ (∀ s' effs, approveHandshake exActionA exMetadata 0 exStateReq1
        = Except.ok (s', effs) → MapScoped s')
    ∧ (∀ s' effs, rejectHandshake "no" exStateReq1 = Except.ok (s', effs) →
        MapScoped s')
    ∧ (∀ s' effs, approveAction exActionA "ok" exStateReq1 = Except.ok (s', effs) →
        MapScoped s')
    ∧ (∀ s' effs, rejectAction exActionA "bad" exStateReq1 = Except.ok (s', effs) →
        MapScoped s') :=
  responseMap_scoped_across_operations exCodec 7 0 0 "req" exStateReq1 exActionA
    exMetadata "no" "ok" "bad"
    (by intro p hp; simp [exStateReq1] at hp)
    (by intro msg h
        simp only [exStateReq1, Option.some.injEq] at h
        rw [← h]
        simp [exReqMsg1])

/-- C7: `approveAction` records a success outcome for the action's id in the response
map; it then sends the response and clears the active message to `None` precisely
when, after recording, every action of the message has an entry in the map (full
coverage), and otherwise leaves the message active with no delivery. -/
theorem approveAction_records_and_completes
    (action : Action) (result : String) (s : HostState) (msg : RequestMessage)
    (hmsg : s.activeMessage = some msg) :
    ((mapSet s.actionToResponseMap action.id (ReturnValue.result result)).lookup
        action.id = some (ReturnValue.result result))
    ∧ (msg.actions.all (fun a =>
          ((mapSet s.actionToResponseMap action.id
            (ReturnValue.result result)).lookup a.id).isSome) = true →
        approveAction action result s =
          Except.ok (updateActiveMessage none
              { s with actionToResponseMap :=
                  mapSet s.actionToResponseMap action.id (ReturnValue.result result) },
            [Effect.sendResp
              (mapSet s.actionToResponseMap action.id (ReturnValue.result result))
              msg.callbackUrl]))
    ∧ (msg.actions.all (fun a =>
          ((mapSet s.actionToResponseMap action.id
            (ReturnValue.result result)).lookup a.id).isSome) = false →
        approveAction action result s =
          Except.ok
            ({ s with
                actionToResponseMap :=
                  mapSet s.actionToResponseMap action.id (ReturnValue.result result) },
             [])) := by
  refine ⟨?_, ?_, ?_⟩
  · simp [mapSet]
  · intro hfull
    simp [approveAction, hmsg, shouldRespondToClient, hfull, updateActiveMessage]
  · intro hnot
    simp [approveAction, hmsg, shouldRespondToClient, hnot]

/-- C7 witness: approving the only action of a one-action message records its result
and completes the message. -/
theorem approveAction_records_and_completes_witness :
    ((mapSet exStateReq1.actionToResponseMap exActionA.id
        (ReturnValue.result "ok")).lookup exActionA.id
        = some (ReturnValue.result "ok"))
    ∧ (exReqMsg1.actions.all (fun a =>
          ((mapSet exStateReq1.actionToResponseMap exActionA.id
            (ReturnValue.result "ok")).lookup a.id).isSome) = true →
        approveAction exActionA "ok" exStateReq1 =
          Except.ok (updateActiveMessage none
              { exStateReq1 with
                  actionToResponseMap :=
                    mapSet exStateReq1.actionToResponseMap exActionA.id
                      (ReturnValue.result "ok") },
            [Effect.sendResp
              (mapSet exStateReq1.actionToResponseMap exActionA.id
                (ReturnValue.result "ok"))
              exReqMsg1.callbackUrl]))
    ∧ (exReqMsg1.actions.all (fun a =>
          ((mapSet exStateReq1.actionToResponseMap exActionA.id
            (ReturnValue.result "ok")).lookup a.id).isSome) = false →
        approveAction exActionA "ok" exStateReq1 =
          Except.ok
            ({ exStateReq1 with
                actionToResponseMap :=
                  mapSet exStateReq1.actionToResponseMap exActionA.id
                    (ReturnValue.result "ok") },
             [])) :=
  approveAction_records_and_completes exActionA "ok" exStateReq1 exReqMsg1 rfl

/-- C9: calling `approveHandshake`, `rejectHandshake`, `approveAction` or
`rejectAction` with no active message signals an invalid-state error immediately, and
calling `fetchAppMetadata` or `isAppVerified` with no active handshake action does
too; each error result carries no updated state and no effects, so nothing is
mutated, delivered or read from storage. -/
theorem invalid_state_signalled
    (s t : HostState) (hs : s.activeMessage = none) (ht : activeHandshake t = none)
    (action : Action) (metadata : AppMetadata) (now : Nat)
    (description result err : String) :
    approveHandshake action metadata now s = Except.error "No message found"
    ∧ rejectHandshake description s = Except.error "No message found"
    ∧ approveAction action result s = Except.error "No message found"
    ∧ rejectAction action err s = Except.error "No message found"
    ∧ fetchAppMetadata t = Except.error "No handshake action"
    ∧ isAppVerified t = Except.error "No handshake action" := by
  refine ⟨?_, ?_, ?_, ?_, ?_, ?_⟩ <;>
    simp [approveHandshake, rejectHandshake, approveAction, rejectAction,
      fetchAppMetadata, isAppVerified, hs, ht]

/-- C9 witness: the six operations on the empty state. -/
theorem invalid_state_signalled_witness :
    approveHandshake exActionA exMetadata 0 exState0 = Except.error "No message found"
    ∧ rejectHandshake "no" exState0 = Except.error "No message found"
    ∧ approveAction exActionA "ok" exState0 = Except.error "No message found"
    ∧ rejectAction exActionA "bad" exState0 = Except.error "No message found"
    ∧ fetchAppMetadata exState0 = Except.error "No handshake action"
    ∧ isAppVerified exState0 = Except.error "No handshake action" :=
  invalid_state_signalled exState0 exState0 rfl rfl exActionA exMetadata 0 "no" "ok" "bad"

/-- C6: if the store holds at most one session for app identity `X` before
`approveHandshake` for `X`, then afterwards it holds exactly one session for `X`,
namely the newly created one — any pre-existing session for `X` is deleted before
the new one is added.  In particular two successive approvals for `X` leave exactly
one session for `X`, with the fields of the second approval. -/
theorem approveHandshake_session_unique
    (action : Action) (metadata : AppMetadata) (now : Nat) (s : HostState)
    (msg : RequestMessage) (hmsg : s.activeMessage = some msg)
    (hcount : (s.sessions.filter (fun v => v.dappId == metadata.appId)).length ≤ 1) :
    ∃ s' effs, approveHandshake action metadata now s = Except.ok (s', effs) ∧
      s'.sessions.filter (fun v => v.dappId == metadata.appId)
        = [createSession metadata action msg now] := by
  cases hex : s.sessions.find? (fun v => v.dappId == metadata.appId) with
  | none =>
    have hnil : s.sessions.filter (fun v => v.dappId == metadata.appId) = [] := by
      refine List.filter_eq_nil_iff.mpr ?_
      intro a ha
      simpa using List.find?_eq_none.mp hex a ha
    by_cases hcomp : shouldRespondToClient s.actionToResponseMap msg
    · refine ⟨updateActiveMessage none
          { s with sessions := s.sessions ++ [createSession metadata action msg now] },
        [Effect.storeAdd (createSession metadata action msg now).dappId,
         Effect.sendResp s.actionToResponseMap msg.callbackUrl], ?_, ?_⟩
      · simp [approveHandshake, hmsg, hex, hcomp]
      · simp [updateActiveMessage, List.filter_append, hnil, createSession]
    · refine ⟨{ s with sessions := s.sessions ++ [createSession metadata action msg now] },
        [Effect.storeAdd (createSession metadata action msg now).dappId], ?_, ?_⟩
      · simp [approveHandshake, hmsg, hex, hcomp]
      · simp [List.filter_append, hnil, createSession]
  | some e =>
    have hpe : (e.dappId == metadata.appId) = true := by
      have h := List.find?_some hex
      simpa using h
    have hfe : s.sessions.filter (fun v => v.dappId == metadata.appId) = [e] := by
      have hmem : e ∈ s.sessions.filter (fun v => v.dappId == metadata.appId) :=
        List.mem_filter.mpr ⟨List.mem_of_find?_eq_some hex, hpe⟩
      match hl : s.sessions.filter (fun v => v.dappId == metadata.appId) with
      | [] =>
        rw [hl] at hmem
        simp at hmem
      | [x] =>
        rw [hl] at hmem
        simp at hmem
        rw [hl, hmem]
      | x :: y :: t =>
        rw [hl] at hcount
        simp at hcount
    have hdel : (deleteSessions [e] s.sessions).filter
        (fun v => v.dappId == metadata.appId) = [] := by
      refine List.filter_eq_nil_iff.mpr ?_
      intro a ha hpa
      have hsplit := List.mem_filter.mp ha
      have hane : ¬ a ∈ ([e] : List Session) := by simpa [deleteSessions] using hsplit.2
      have : a ∈ s.sessions.filter (fun v => v.dappId == metadata.appId) :=
        List.mem_filter.mpr ⟨hsplit.1, hpa⟩
      rw [hfe] at this
      exact hane this
    by_cases hcomp : shouldRespondToClient s.actionToResponseMap msg
    · refine ⟨updateActiveMessage none
          { s with sessions :=
              deleteSessions [e] s.sessions ++ [createSession metadata action msg now] },
        [Effect.storeDelete e.dappId,
         Effect.storeAdd (createSession metadata action msg now).dappId,
         Effect.sendResp s.actionToResponseMap msg.callbackUrl], ?_, ?_⟩
      · simp [approveHandshake, hmsg, hex, hcomp]
      · simp [updateActiveMessage, List.filter_append, hdel, createSession]
    · refine ⟨{ s with sessions :=
            deleteSessions [e] s.sessions ++ [createSession metadata action msg now] },
        [Effect.storeDelete e.dappId,
         Effect.storeAdd (createSession metadata action msg now).dappId], ?_, ?_⟩
      · simp [approveHandshake, hmsg, hex, hcomp]
      · simp [List.filter_append, hdel, createSession]

/-- C6 witness: approving the handshake of a concrete active message with an empty
store leaves exactly the newly created session for `app1`. -/
theorem approveHandshake_session_unique_witness :
    ∃ s' effs, approveHandshake exHsAction exMetadata 5 exStateHs = Except.ok (s', effs) ∧
      s'.sessions.filter (fun v => v.dappId == exMetadata.appId)
        = [createSession exMetadata exHsAction exHsMsg 5] :=
  approveHandshake_session_unique exHsAction exMetadata 5 exStateHs exHsMsg rfl
    (by decide)

/-- C3: evaluating `approveHandshake` on a concrete active Handshake-kind message
whose lone action is the handshake: the source records no outcome for the handshake
action, so the full-coverage aggregator does not report completeness — the session is
persisted but no response is sent and the active message is NOT cleared, contradicting
the claim that the response is sent and the message cleared in that same call. -/
theorem approveHandshake_handshake_incomplete :
    approveHandshake exHsAction exMetadata 5 exStateHs =
      Except.ok ({ exStateHs with
                     sessions := [createSession exMetadata exHsAction exHsMsg 5] },
        [Effect.storeAdd "app1"])
    ∧ ({ exStateHs with
           sessions := [createSession exMetadata exHsAction exHsMsg 5] } :
        HostState).activeMessage = some exHsMsg
    ∧ ({ exStateHs with
           sessions := [createSession exMetadata exHsAction exHsMsg 5] } :
        HostState).actionToResponseMap.lookup exHsAction.id = none := by
  refine ⟨?_, rfl, rfl⟩
  rfl

/-- C1: evaluating `rejectAction` at the failing input: rejecting the mandatory
action A of the active two-action message sends the response immediately but leaves
the active message in place (the source's mandatory branch omits the clearing step),
so a later rejection of the remaining optional action B succeeds and sends a second
response instead of signalling an invalid-state error. -/
theorem rejectAction_mandatory_leaves_message_active :
    rejectAction exActionA "denied" exStateReq =
      Except.ok ({ exStateReq with
                     actionToResponseMap := [(1, ReturnValue.error "denied")] },
        [Effect.sendResp [(1, ReturnValue.error "denied")] "cb"])
    ∧ ({ exStateReq with
           actionToResponseMap := [(1, ReturnValue.error "denied")] } :
        HostState).activeMessage = some exReqMsg
    ∧ rejectAction exActionB "later"
        { exStateReq with actionToResponseMap := [(1, ReturnValue.error "denied")] } =
      Except.ok ({ exStateReq with activeMessage := none },
        [Effect.sendResp
          [(2, ReturnValue.error "later"), (1, ReturnValue.error "denied")] "cb"]) := by
  refine ⟨?_, rfl, ?_⟩ <;> rfl

end MWP
